import Mathlib

/-!
Shallow embedding of the trivia API service
(`backend/flaskr/__init__.py`) and proofs about its route handlers.

The Flask / SQLAlchemy infrastructure is abstracted as follows:

* the relational store is a `List Question` (plus a `List Category`),
  passed explicitly to each handler;
* `abort(code, msg)` and uncaught exceptions become constructors of the
  `Resp` type; the two `errorhandler` functions render them to an
  `ErrorBody` with a status code;
* Python's `int()` and list slicing are modelled by `int_of_string` and
  `pySlice`;
* the `re.search(..., re.IGNORECASE)` engine is an external library and
  is abstracted as a fallible matcher parameter
  `reSearch : String → String → Except String Bool`;
* `order_by(func.random()).first()` is abstracted as a selection
  function `pick : List Question → Option Question` that returns an
  element of its argument when the argument is nonempty.
-/

/-- A row of the `categories` table (`Category` model): integer primary
key `id` and a string label `type`. -/
structure Category where
  id : Nat
  type : String
deriving DecidableEq, Repr

/-- A row of the `questions` table (`Question` model): integer primary
key `id`, the text fields `question` and `answer`, an integer `category`
foreign key and an integer `difficulty`. -/
structure Question where
  id : Nat
  question : String
  answer : String
  category : Int
  difficulty : Int
deriving DecidableEq, Repr

/-- The JSON serialisation of a question row. -/
structure FormattedQuestion where
  id : Nat
  question : String
  answer : String
  category : Int
  difficulty : Int
deriving DecidableEq, Repr

/-- Modelled from the spec: `Question.format` lives in
`backend/database/models.py`, which is not among the sources; per the
spec it serialises a row as `{id, question, answer, category,
difficulty}`. -/
def Question.format (q : Question) : FormattedQuestion :=
  { id := q.id, question := q.question, answer := q.answer,
    category := q.category, difficulty := q.difficulty }

/-- Outcome of one request: a 200 payload, a structured HTTP error
raised with `abort(code, message)`, or an uncaught exception carrying
its message (later rendered by the catch-all handler). -/
inductive Resp (α : Type) where
  | ok (payload : α)
  | httpErr (code : Nat) (message : String)
  | exn (details : String)
deriving DecidableEq, Repr

/-- HTTP status of a response: 200 for a payload, the carried code for
an `abort`, 500 for an uncaught exception. -/
def Resp.status {α : Type} : Resp α → Nat
  | .ok _ => 200
  | .httpErr c _ => c
  | .exn _ => 500

/-- The JSON body produced by the two error handlers. -/
structure ErrorBody where
  success : Bool
  error : Nat
  message : String
deriving DecidableEq, Repr

/-- The `http_exception_handler` error handler: an `HTTPException` with
code and description becomes `{success: false, error: code, message:
description}` with that same status code. -/
def http_exception_handler (code : Nat) (description : String) : ErrorBody × Nat :=
  ({ success := false, error := code, message := description }, code)

/-- The `exception_handler` catch-all error handler: any other exception
becomes `{success: false, error: 500, message: "Something went wrong:
<details>"}` with status 500. -/
def exception_handler (details : String) : ErrorBody × Nat :=
  ({ success := false, error := 500, message := "Something went wrong: " ++ details }, 500)

/-- The service boundary: a failed response is rendered to JSON by the
matching error handler (`HTTPException` by `http_exception_handler`,
anything else by `exception_handler`); a 200 payload is returned as is
(`none` here). -/
def renderError {α : Type} : Resp α → Option (ErrorBody × Nat)
  | .ok _ => none
  | .httpErr c m => some (http_exception_handler c m)
  | .exn d => some (exception_handler d)

/-- Clamp one Python slice index against a list of length `n`: a
negative index counts from the end (`n + i`, floored at 0), a
nonnegative one is capped at `n`. -/
def pyBound (n : Nat) (i : Int) : Nat :=
  if i < 0 then ((n : Int) + i).toNat else min i.toNat n

/-- Python list slicing `l[a:b]`: both bounds clamped by `pyBound`,
yielding a (possibly empty) sublist, never an error. -/
def pySlice {α : Type} (l : List α) (a b : Int) : List α :=
  let s := pyBound l.length a
  let e := pyBound l.length b
  (l.drop s).take (e - s)

/-- Check that a character list is a nonempty run of decimal digits and
return its value. -/
def decDigits (cs : List Char) : Option Nat :=
  if cs ≠ [] ∧ cs.all Char.isDigit then
    some (cs.foldl (fun n c => 10 * n + (c.toNat - 48)) 0)
  else none

/-- Modelled from the spec (Python standard library, outside the
sources): `int()` applied to a string, restricted to ASCII decimal
literals — surrounding whitespace is stripped, an optional single sign
is allowed, and a nonempty digit run is required; any other string
raises `ValueError`. -/
def int_of_string (s : String) : Except String Int :=
  let cs := ((s.toList.dropWhile Char.isWhitespace).reverse.dropWhile Char.isWhitespace).reverse
  let invalid : Except String Int :=
    .error ("invalid literal for int() with base 10: " ++ s)
  match cs with
  | '-' :: rest =>
    match decDigits rest with
    | some n => .ok (-(n : Int))
    | none => invalid
  | '+' :: rest =>
    match decDigits rest with
    | some n => .ok (n : Int)
    | none => invalid
  | other =>
    match decDigits other with
    | some n => .ok (n : Int)
    | none => invalid

/-- Response payload of `GET /questions`. -/
structure QuestionsPayload where
  questions : List FormattedQuestion
  total_questions : Nat
  categories : List (Nat × String)
deriving DecidableEq, Repr

/-- Body of the `get_questions` handler after the `page` parameter has
been parsed (lines 56-68 of `flaskr/__init__.py`): slice the formatted
question list to `[page*10 - 10, page*10)` when `page` is truthy,
return it whole when `page` is 0; `total_questions` is always the full
length. -/
def get_questions_core (cats : List Category) (qs : List Question) (page : Int) :
    QuestionsPayload :=
  let categories := cats.map (fun c => (c.id, c.type))
  let questions := qs.map Question.format
  let upper_limit := page * 10
  let lower_limit := upper_limit - 10
  { questions := if page ≠ 0 then pySlice questions lower_limit upper_limit else questions,
    total_questions := questions.length,
    categories := categories }

/-- The `get_questions` handler for `GET /questions?page=...`:
`page = int(request.args.get('page', '0'))` — an absent parameter
defaults to the string `'0'`, and a failed parse raises `ValueError`,
which escapes to the catch-all handler. -/
def get_questions (cats : List Category) (qs : List Question) (pageArg : Option String) :
    Resp QuestionsPayload :=
  match int_of_string (pageArg.getD "0") with
  | .error e => .exn e
  | .ok page => .ok (get_questions_core cats qs page)

/-- Response payload of `DELETE /questions/<id>`. -/
structure DeletePayload where
  deleted : Nat
deriving DecidableEq, Repr

/-- The `delete_question` handler: `Question.query.get(question_id)` is
a primary-key lookup, modelled as the first row whose `id` matches; an
absent row aborts with 404, otherwise `question.delete()` (modelled
from the spec: row removal lives in `models.py`, outside the sources)
removes that row, and `{deleted: question_id}` is returned. -/
def delete_question (qs : List Question) (question_id : Nat) :
    List Question × Resp DeletePayload :=
  match qs.find? (fun q => q.id = question_id) with
  | none =>
    (qs, .httpErr 404 ("No question found with id: " ++ toString question_id))
  | some _ =>
    (qs.eraseP (fun q => q.id = question_id), .ok { deleted := question_id })

/-- Truthiness of an optional JSON string (`request.json.get` returns
`None` for an absent key): truthy iff present and nonempty. -/
def truthyStr : Option String → Bool
  | none => false
  | some s => s ≠ ""

/-- Truthiness of an optional JSON integer: truthy iff present and
nonzero. -/
def truthyInt : Option Int → Bool
  | none => false
  | some n => n ≠ 0

/-- Response payload of `POST /questions`. -/
structure PostPayload where
  question : FormattedQuestion
deriving DecidableEq, Repr

/-- The mutable store behind `POST /questions`: the question rows plus
the next primary key to assign. Modelled from the spec: id assignment
(`id`: integer, primary key, auto-assigned) happens in `models.py`,
outside the sources. -/
structure Store where
  questions : List Question
  next_id : Nat
deriving DecidableEq, Repr

/-- The `post_question` handler: read the four fields from the JSON
body; if any is falsy (absent, `null`, empty string or 0), abort with
400 and leave the store unchanged; otherwise insert a new row (with the
auto-assigned id) and return it formatted. -/
def post_question (store : Store) (question answer : Option String)
    (category difficulty : Option Int) : Store × Resp PostPayload :=
  if !(truthyStr question && truthyStr answer &&
       truthyInt category && truthyInt difficulty) then
    (store,
     .httpErr 400 "Required question object keys missing from request body")
  else
    let question_entry : Question :=
      { id := store.next_id, question := question.getD "",
        answer := answer.getD "", category := category.getD 0,
        difficulty := difficulty.getD 0 }
    ({ questions := store.questions ++ [question_entry],
       next_id := store.next_id + 1 },
     .ok { question := question_entry.format })

/-- Filter a list with a fallible predicate, as the comprehension
`[q for q in qs if p(q)]` evaluates it: left to right, the first raised
exception aborting the whole request. -/
def exceptFilter {α ε : Type} (p : α → Except ε Bool) : List α → Except ε (List α)
  | [] => .ok []
  | a :: as =>
    match p a with
    | .error e => .error e
    | .ok true => (exceptFilter p as).map (fun l => a :: l)
    | .ok false => exceptFilter p as

/-- Response payload of `POST /search`. -/
structure SearchPayload where
  questions : List FormattedQuestion
  total_questions : Nat
deriving DecidableEq, Repr

/-- The `search` handler: `searchTerm` defaults to the empty string;
every question whose text the external matcher accepts is kept and
formatted. The matcher abstracts `re.search(term, text, re.IGNORECASE)`
from the Python standard library: `.ok b` is a completed
case-insensitive regex search, `.error e` is the `re.error` raised when
the term does not compile, which escapes to the catch-all handler. -/
def search (qs : List Question) (reSearch : String → String → Except String Bool)
    (searchTerm : Option String) : Resp SearchPayload :=
  let search_term := searchTerm.getD ""
  match exceptFilter (fun q => reSearch search_term q.question) qs with
  | .error e => .exn e
  | .ok questions =>
    .ok { questions := questions.map Question.format,
          total_questions := questions.length }

/-- Response payload of `GET /categories/<id>/questions`. -/
structure CategoryPayload where
  questions : List FormattedQuestion
  total_questions : Nat
  current_category : Nat
deriving DecidableEq, Repr

/-- The `get_questions_by_category` handler: a falsy (zero) category id
aborts with 400; otherwise the questions whose `category` equals the
path parameter are returned, with their count and the echoed id.
(Flask's `<int:...>` converter only matches nonnegative integers, hence
`category_id : Nat`.) -/
def get_questions_by_category (qs : List Question) (category_id : Nat) :
    Resp CategoryPayload :=
  if category_id = 0 then .httpErr 400 "Invalid category id"
  else
    let questions :=
      (qs.filter (fun q => q.category = (category_id : Int))).map Question.format
    .ok { questions := questions, total_questions := questions.length,
          current_category := category_id }

/-- The `quiz_category` object of a `POST /quizzes` body; only its `id`
field is read (`int(quiz_category.get('id'))`). -/
structure QuizCategory where
  id : Int
deriving DecidableEq, Repr

/-- Response payload of `POST /quizzes`: either the empty JSON object
or `{question: <formatted row>}`. -/
inductive QuizPayload where
  | empty
  | question (q : FormattedQuestion)
deriving DecidableEq, Repr

/-- The `get_quiz_questions` handler: a missing/falsy `quiz_category`
aborts with 400; otherwise the candidate rows are those not in
`previous_questions`, restricted to the requested category when its id
is nonzero; `pick` abstracts `order_by(func.random()).first()` — a
random element of the candidate list, `none` exactly on the empty
list. An empty result is the empty JSON object with status 200. -/
def get_quiz_questions (qs : List Question)
    (pick : List Question → Option Question) (previous_questions : List Nat)
    (quiz_category : Option QuizCategory) : Resp QuizPayload :=
  match quiz_category with
  | none => .httpErr 400 "Required keys missing from request body"
  | some qc =>
    let category_id := qc.id
    let questions :=
      if category_id ≠ 0 then
        qs.filter (fun q =>
          q.category = category_id && !(previous_questions.contains q.id))
      else
        qs.filter (fun q => !(previous_questions.contains q.id))
    match pick questions with
    | none => .ok .empty
    | some question => .ok (.question question.format)

/-- A small concrete question store used to witness the theorems below. -/
def demoQuestions : List Question :=
  [ { id := 1, question := "Who invented the personal computer?",
      answer := "Steve Wozniak", category := 4, difficulty := 2 },
    { id := 2, question := "What is the largest planet?",
      answer := "Jupiter", category := 1, difficulty := 1 },
    { id := 3, question := "What year did WW2 end?",
      answer := "1945", category := 4, difficulty := 3 } ]

/-- A concrete store for the create-question witnesses. -/
def demoStore : Store :=
  { questions := demoQuestions, next_id := 4 }

/-- A concrete stand-in for the abstract regex engine, used only to
instantiate witnesses: the pattern `(` fails to compile, any other
pattern is matched as a case-insensitive substring. -/
def demoMatcher : String → String → Except String Bool :=
  fun pat s =>
    if pat = "(" then .error "missing ), unterminated subpattern at position 0"
    else .ok (pat == "" || ((s.toLower).splitOn (pat.toLower)).length != 1)

/-- The pure match function realised by `demoMatcher` at pattern
`what`. -/
def demoWhatMatch : String → Bool :=
  fun s => ("what" : String) == "" || ((s.toLower).splitOn ("what".toLower)).length != 1

/-- Helper: a fallible filter whose predicate in fact always succeeds
agrees with the pure filter. -/
theorem exceptFilter_ok {α ε : Type} (p : α → Except ε Bool) (m : α → Bool)
    (h : ∀ a, p a = .ok (m a)) (l : List α) :
    exceptFilter p l = .ok (l.filter m) := by
  induction l with
  | nil => rfl
  | cons a as ih =>
    cases hma : m a <;>
      simp [exceptFilter, h a, hma, ih, List.filter_cons, Except.map]

/-- Helper: a fallible filter over a nonempty list whose predicate
always fails propagates the failure. -/
theorem exceptFilter_error {α ε : Type} (p : α → Except ε Bool) (e : ε)
    (h : ∀ a, p a = .error e) (a : α) (l : List α) :
    exceptFilter p (a :: l) = .error e := by
  simp [exceptFilter, h a]

/-- Helper: when the row ids are pairwise distinct, no row of
`qs.eraseP (·.id = i)` carries id `i` if one carrying it was erased or
none was present. -/
theorem eraseP_id_not_mem (qs : List Question) (i : Nat)
    (hnodup : (qs.map Question.id).Nodup) (r : Question)
    (hr : r ∈ qs.eraseP (fun q => q.id = i)) : r.id ≠ i ∨ ∀ q ∈ qs, q.id ≠ i := by
  induction qs with
  | nil => simp [List.eraseP] at hr
  | cons a as ih =>
    simp only [List.map_cons, List.nodup_cons] at hnodup
    by_cases ha : a.id = i
    · left
      rw [List.eraseP_cons_of_pos (by simpa using ha)] at hr
      intro hri
      exact hnodup.1 (by rw [ha, ← hri]; exact List.mem_map_of_mem Question.id hr)
    · rw [List.eraseP_cons_of_neg (by simpa using ha)] at hr
      rcases List.mem_cons.mp hr with h | h
      · left; rw [h]; exact ha
      · rcases ih hnodup.2 h with h' | h'
        · exact Or.inl h'
        · right
          intro q hq
          rcases List.mem_cons.mp hq with rfl | hq'
          · exact ha
          · exact h' q hq'

/-- C1: for every question list and every integer `page ≥ 1`, the
returned questions are the full formatted list sliced at
`[(page-1)*10, page*10)` under Python slicing semantics; `page = 0` or
an absent `page` returns the entire unsliced list; and
`total_questions` always equals the length of the full unsliced
list. -/
theorem list_questions_pagination (cats : List Category) (qs : List Question)
    (page : Int) :
    (1 ≤ page →
      (get_questions_core cats qs page).questions
        = pySlice (qs.map Question.format) ((page - 1) * 10) (page * 10))
    ∧ (get_questions_core cats qs 0).questions = qs.map Question.format
    ∧ get_questions cats qs none = .ok (get_questions_core cats qs 0)
    ∧ (get_questions_core cats qs page).total_questions
        = (qs.map Question.format).length := by
  refine ⟨?_, ?_, ?_, ?_⟩
  · intro h
    have hne : page ≠ 0 := by omega
    have hb : page * 10 - 10 = (page - 1) * 10 := by ring
    simp [get_questions_core, hne, hb]
  · simp [get_questions_core]
  · rfl
  · simp [get_questions_core]

/-- Witness for C1 at `page = 1` on the demo store. -/
theorem list_questions_pagination_witness :
    (get_questions_core [] demoQuestions 1).questions
      = pySlice (demoQuestions.map Question.format) (((1 : Int) - 1) * 10) ((1 : Int) * 10) :=
  (list_questions_pagination [] demoQuestions 1).1 (by norm_num)

/-- C9: for every negative page `-k` (`k ≥ 1`) the handler still
answers 200 and returns the Python slice `questions[-10k-10 : -10k]`, a
window of at most 10 elements counted from the end of the full list. -/
theorem list_questions_negative_page (cats : List Category) (qs : List Question)
    (k : Nat) (hk : 1 ≤ k) :
    (get_questions_core cats qs (-(k : Int))).questions
      = pySlice (qs.map Question.format) (-(10 * (k : Int)) - 10) (-(10 * (k : Int)))
    ∧ (get_questions_core cats qs (-(k : Int))).questions.length ≤ 10
    ∧ ∀ s, int_of_string s = .ok (-(k : Int)) →
        (get_questions cats qs (some s)).status = 200 := by
  have hne : -(k : Int) ≠ 0 := by omega
  have hb1 : (-(k : Int)) * 10 - 10 = -(10 * (k : Int)) - 10 := by ring
  have hb2 : (-(k : Int)) * 10 = -(10 * (k : Int)) := by ring
  have hq : (get_questions_core cats qs (-(k : Int))).questions
      = pySlice (qs.map Question.format) (-(10 * (k : Int)) - 10) (-(10 * (k : Int))) := by
    simp [get_questions_core, hne, hb1, hb2]
  refine ⟨hq, ?_, ?_⟩
  · have h1 : (-(10 * (k : Int)) - 10) < 0 := by omega
    have h2 : (-(10 * (k : Int))) < 0 := by omega
    rw [hq]
    simp only [pySlice, pyBound, if_pos h1, if_pos h2, List.length_take,
      List.length_drop]
    omega
  · intro s hs
    simp [get_questions, hs, Resp.status]

/-- Witness for C9 at `k = 1`, `page` string `-1`, on the demo store. -/
theorem list_questions_negative_page_witness :
    (get_questions_core [] demoQuestions (-((1 : Nat) : Int))).questions
      = pySlice (demoQuestions.map Question.format)
          (-(10 * ((1 : Nat) : Int)) - 10) (-(10 * ((1 : Nat) : Int)))
    ∧ (get_questions [] demoQuestions (some "-1")).status = 200 :=
  ⟨(list_questions_negative_page [] demoQuestions 1 (by norm_num)).1,
   (list_questions_negative_page [] demoQuestions 1 (by norm_num)).2.2 "-1" rfl⟩

/-- C3 counterexample: the claim says a non-numeric `page` string is
treated as 0 and yields the full list with status 200; on the code,
`int('abc')` raises, the catch-all handler answers, and the status is
500, not a 200 full-list response. -/
theorem list_questions_nonnumeric_counterexample :
    (get_questions [] demoQuestions (some "abc")).status = 500
    ∧ get_questions [] demoQuestions (some "abc")
        ≠ .ok (get_questions_core [] demoQuestions 0) :=
  ⟨rfl, fun h => Resp.noConfusion h⟩

/-- C3 amended: an absent `page` defaults to the string `0`, parses to
0 and yields the full unsliced list with status 200; a string that does
not parse as an integer makes `int()` raise `ValueError`, which the
catch-all handler renders as a 500 error response. -/
theorem list_questions_page_parsing (cats : List Category) (qs : List Question) :
    get_questions cats qs none = .ok (get_questions_core cats qs 0)
    ∧ (get_questions_core cats qs 0).questions = qs.map Question.format
    ∧ (get_questions cats qs none).status = 200
    ∧ ∀ s e, int_of_string s = .error e →
        (get_questions cats qs (some s)).status = 500
        ∧ renderError (get_questions cats qs (some s))
            = some (exception_handler e) := by
  refine ⟨rfl, by simp [get_questions_core], rfl, ?_⟩
  intro s e hs
  constructor <;> simp [get_questions, hs, Resp.status, renderError]

/-- Witness for the amended C3 at the non-numeric page string `abc`. -/
theorem list_questions_page_parsing_witness :
    (get_questions [] demoQuestions (some "abc")).status = 500
    ∧ renderError (get_questions [] demoQuestions (some "abc"))
        = some (exception_handler ("invalid literal for int() with base 10: " ++ "abc")) :=
  (list_questions_page_parsing [] demoQuestions).2.2.2 "abc"
    ("invalid literal for int() with base 10: " ++ "abc") rfl

/-- Helper: a row whose id differs from the erased one survives the
erasure. -/
theorem mem_eraseP_of_id_ne (qs : List Question) (i : Nat) (r : Question)
    (hr : r ∈ qs) (hne : r.id ≠ i) : r ∈ qs.eraseP (fun q => q.id = i) := by
  induction qs with
  | nil => simp at hr
  | cons a as ih =>
    by_cases ha : a.id = i
    · rw [List.eraseP_cons_of_pos (by simpa using ha)]
      rcases List.mem_cons.mp hr with rfl | h
      · exact absurd ha hne
      · exact h
    · rw [List.eraseP_cons_of_neg (by simpa using ha)]
      rcases List.mem_cons.mp hr with rfl | h
      · exact List.mem_cons_self _ _
      · exact List.mem_cons_of_mem _ (ih h)

/-- C6: when no question has the requested id, the handler answers 404
with `success: false` and leaves the store unchanged; when one exists,
the row is removed (all other rows kept), the answer is
`{deleted: question_id}` with status 200, and a second delete of the
same id answers 404. The hypothesis reflects the primary-key
uniqueness of `Question.id`. -/
theorem delete_question_spec (qs : List Question) (i : Nat)
    (hnodup : (qs.map Question.id).Nodup) :
    ((∀ q ∈ qs, q.id ≠ i) →
      delete_question qs i
        = (qs, .httpErr 404 ("No question found with id: " ++ toString i))
      ∧ (delete_question qs i).2.status = 404
      ∧ renderError (delete_question qs i).2
          = some ({ success := false, error := 404,
                    message := "No question found with id: " ++ toString i }, 404))
    ∧ ((∃ q ∈ qs, q.id = i) →
      (delete_question qs i).2 = .ok { deleted := i }
      ∧ (delete_question qs i).2.status = 200
      ∧ (∀ r ∈ (delete_question qs i).1, r.id ≠ i)
      ∧ (∀ r ∈ qs, r.id ≠ i → r ∈ (delete_question qs i).1)
      ∧ (delete_question ((delete_question qs i).1) i).2.status = 404) := by
  constructor
  · intro h
    have hfind : qs.find? (fun q => q.id = i) = none :=
      List.find?_eq_none.mpr (by intro a ha; simpa using h a ha)
    refine ⟨by simp [delete_question, hfind], ?_, ?_⟩ <;>
      simp [delete_question, hfind, Resp.status, renderError,
        http_exception_handler]
  · rintro ⟨q, hq, hqi⟩
    have hsome : (qs.find? (fun q => q.id = i)).isSome :=
      List.find?_isSome.mpr ⟨q, hq, by simpa using hqi⟩
    obtain ⟨q', hq'⟩ := Option.isSome_iff_exists.mp hsome
    have hremoved : ∀ r ∈ (delete_question qs i).1, r.id ≠ i := by
      intro r hr
      have hr' : r ∈ qs.eraseP (fun q => q.id = i) := by
        simpa [delete_question, hq'] using hr
      rcases eraseP_id_not_mem qs i hnodup r hr' with h' | h'
      · exact h'
      · exact absurd hqi (h' q hq)
    have hfind2 : ((delete_question qs i).1.find? (fun q => q.id = i)) = none :=
      List.find?_eq_none.mpr (by intro a ha; simpa using hremoved a ha)
    refine ⟨by simp [delete_question, hq'], by simp [delete_question, hq', Resp.status],
      hremoved, ?_, ?_⟩
    · intro r hr hne
      simpa [delete_question, hq'] using mem_eraseP_of_id_ne qs i r hr hne
    · generalize hL : (delete_question qs i).1 = L at hfind2 ⊢
      simp [delete_question, hfind2, Resp.status]

/-- Witness for C6: deleting id 2 from the demo store answers 200 and a
repeated delete answers 404. -/
theorem delete_question_spec_witness :
    (delete_question demoQuestions 2).2 = .ok { deleted := 2 }
    ∧ (delete_question ((delete_question demoQuestions 2).1) 2).2.status = 404 := by
  have h := (delete_question_spec demoQuestions 2 (by decide)).2
    ⟨{ id := 2, question := "What is the largest planet?",
       answer := "Jupiter", category := 1, difficulty := 1 },
     by decide, rfl⟩
  exact ⟨h.1, h.2.2.2.2⟩

/-- C4: if any of the four body fields is absent or falsy the handler
answers 400 and the store is unchanged (in particular `category = 0` or
`difficulty = 0` is rejected as missing); if all four are truthy a new
row with the next auto-assigned id is appended and answered formatted
with status 200. The hypothesis reflects that auto-assigned primary
keys are larger than every existing id. -/
theorem post_question_spec (store : Store) (question answer : Option String)
    (category difficulty : Option Int)
    (hfresh : ∀ q ∈ store.questions, q.id < store.next_id) :
    ((truthyStr question && truthyStr answer && truthyInt category
        && truthyInt difficulty) = false →
      post_question store question answer category difficulty
        = (store,
           .httpErr 400 "Required question object keys missing from request body")
      ∧ (post_question store question answer category difficulty).2.status = 400)
    ∧ ((category = some 0 ∨ difficulty = some 0) →
      (post_question store question answer category difficulty).1 = store
      ∧ (post_question store question answer category difficulty).2.status = 400)
    ∧ ((truthyStr question && truthyStr answer && truthyInt category
        && truthyInt difficulty) = true →
      ∃ entry : Question,
        (post_question store question answer category difficulty).1.questions
          = store.questions ++ [entry]
        ∧ (post_question store question answer category difficulty).2
            = .ok { question := entry.format }
        ∧ entry.id = store.next_id
        ∧ ∀ q ∈ store.questions, q.id ≠ entry.id) := by
  constructor
  · intro h
    constructor <;> simp [post_question, h, Resp.status]
  constructor
  · intro h
    have hfalse : (truthyStr question && truthyStr answer && truthyInt category
        && truthyInt difficulty) = false := by
      rcases h with rfl | rfl <;> simp [truthyInt]
    constructor <;> simp [post_question, hfalse, Resp.status]
  · intro h
    refine ⟨{ id := store.next_id, question := question.getD "",
              answer := answer.getD "", category := category.getD 0,
              difficulty := difficulty.getD 0 },
      by simp [post_question, h], by simp [post_question, h], rfl, ?_⟩
    intro q hq
    have := hfresh q hq
    show q.id ≠ store.next_id
    omega

/-- Witness for C4: a fully valid payload on the demo store inserts a
fresh row and answers it formatted. -/
theorem post_question_spec_witness :
    ∃ entry : Question,
      (post_question demoStore (some "Which planet is red?") (some "Mars")
        (some 1) (some 1)).1.questions = demoStore.questions ++ [entry]
      ∧ (post_question demoStore (some "Which planet is red?") (some "Mars")
          (some 1) (some 1)).2 = .ok { question := entry.format }
      ∧ entry.id = demoStore.next_id
      ∧ ∀ q ∈ demoStore.questions, q.id ≠ entry.id :=
  (post_question_spec demoStore (some "Which planet is red?") (some "Mars")
    (some 1) (some 1) (by decide)).2.2 (by decide)

/-- C7: a category id of exactly 0 answers 400; any other id answers
200 with only the questions of that category, their count as
`total_questions`, and the id echoed as `current_category`. -/
theorem questions_by_category_spec (qs : List Question) (category_id : Nat) :
    (category_id = 0 →
      get_questions_by_category qs category_id
        = .httpErr 400 "Invalid category id"
      ∧ (get_questions_by_category qs category_id).status = 400)
    ∧ (category_id ≠ 0 →
      (get_questions_by_category qs category_id).status = 200
      ∧ ∃ p : CategoryPayload,
        get_questions_by_category qs category_id = .ok p
        ∧ (∀ f ∈ p.questions, f.category = (category_id : Int))
        ∧ p.total_questions = p.questions.length
        ∧ p.current_category = category_id) := by
  constructor
  · intro h
    constructor <;> simp [get_questions_by_category, h, Resp.status]
  · intro h
    refine ⟨by simp [get_questions_by_category, h, Resp.status],
      { questions :=
          (qs.filter (fun q => q.category = (category_id : Int))).map Question.format,
        total_questions :=
          ((qs.filter (fun q => q.category = (category_id : Int))).map
            Question.format).length,
        current_category := category_id },
      by simp [get_questions_by_category, h], ?_, by simp, rfl⟩
    intro f hf
    simp only [List.mem_map, List.mem_filter] at hf
    obtain ⟨q, ⟨hq, hqc⟩, rfl⟩ := hf
    simpa [Question.format] using hqc

/-- Witness for C7 at category ids 0 and 1 on the demo store. -/
theorem questions_by_category_spec_witness :
    (get_questions_by_category demoQuestions 0
        = .httpErr 400 "Invalid category id"
      ∧ (get_questions_by_category demoQuestions 0).status = 400)
    ∧ ((get_questions_by_category demoQuestions 1).status = 200
      ∧ ∃ p : CategoryPayload,
        get_questions_by_category demoQuestions 1 = .ok p
        ∧ (∀ f ∈ p.questions, f.category = ((1 : Nat) : Int))
        ∧ p.total_questions = p.questions.length
        ∧ p.current_category = 1) :=
  ⟨(questions_by_category_spec demoQuestions 0).1 rfl,
   (questions_by_category_spec demoQuestions 1).2 (by decide)⟩

/-- Helper: unfolding of the quiz handler on a present category, making
the candidate list explicit. -/
theorem quiz_questions_eq (qs : List Question)
    (pick : List Question → Option Question) (prev : List Nat)
    (qc : QuizCategory) :
    get_quiz_questions qs pick prev (some qc)
      = match pick (if qc.id ≠ 0 then
            qs.filter (fun q =>
              q.category = qc.id && !(prev.contains q.id))
          else qs.filter (fun q => !(prev.contains q.id))) with
        | none => .ok .empty
        | some question => .ok (.question question.format) := rfl

/-- C2: a missing/falsy `quiz_category` answers 400; a returned
question never carries an id from `previous_questions`; with a nonzero
`quiz_category.id` the returned question's category equals it; and when
every question is excluded the answer is the empty JSON object with
status 200. The two hypotheses say that the abstract random pick
returns an element of its argument and nothing from the empty list. -/
theorem quiz_spec (qs : List Question) (pick : List Question → Option Question)
    (prev : List Nat) (qcat : Option QuizCategory)
    (hpick_mem : ∀ l q, pick l = some q → q ∈ l)
    (hpick_none : pick [] = none) :
    (qcat = none →
      get_quiz_questions qs pick prev qcat
        = .httpErr 400 "Required keys missing from request body")
    ∧ (∀ f, get_quiz_questions qs pick prev qcat = .ok (.question f) →
        f.id ∉ prev)
    ∧ (∀ qc f, qcat = some qc → qc.id ≠ 0 →
        get_quiz_questions qs pick prev qcat = .ok (.question f) →
        f.category = qc.id)
    ∧ (∀ qc, qcat = some qc →
        (∀ q ∈ qs, q.id ∈ prev ∨ (qc.id ≠ 0 ∧ q.category ≠ qc.id)) →
        get_quiz_questions qs pick prev qcat = .ok .empty
        ∧ (get_quiz_questions qs pick prev qcat).status = 200) := by
  refine ⟨?_, ?_, ?_, ?_⟩
  · rintro rfl
    rfl
  · intro f hf
    cases qcat with
    | none => simp [get_quiz_questions] at hf
    | some qc =>
      rw [quiz_questions_eq] at hf
      cases hp : pick (if qc.id ≠ 0 then
            qs.filter (fun q =>
              q.category = qc.id && !(prev.contains q.id))
          else qs.filter (fun q => !(prev.contains q.id))) with
      | none => rw [hp] at hf; simp at hf
      | some q =>
        rw [hp] at hf
        simp only [Resp.ok.injEq, QuizPayload.question.injEq] at hf
        have hmem := hpick_mem _ q hp
        by_cases hqc : qc.id = 0
        · rw [if_neg (not_not_intro hqc)] at hmem
          rw [List.mem_filter] at hmem
          subst hf
          simpa [Question.format] using hmem.2
        · rw [if_pos hqc] at hmem
          rw [List.mem_filter] at hmem
          subst hf
          have := hmem.2
          simp only [Bool.and_eq_true, Bool.not_eq_true'] at this
          simpa [Question.format] using this.2
  · intro qc f hqcat hqc hf
    subst hqcat
    rw [quiz_questions_eq] at hf
    cases hp : pick (if qc.id ≠ 0 then
          qs.filter (fun q =>
            q.category = qc.id && !(prev.contains q.id))
        else qs.filter (fun q => !(prev.contains q.id))) with
    | none => rw [hp] at hf; simp at hf
    | some q =>
      rw [hp] at hf
      simp only [Resp.ok.injEq, QuizPayload.question.injEq] at hf
      have hmem := hpick_mem _ q hp
      rw [if_pos hqc, List.mem_filter] at hmem
      subst hf
      have := hmem.2
      simp only [Bool.and_eq_true, decide_eq_true_eq] at this
      simpa [Question.format] using this.1
  · intro qc hqcat hall
    subst hqcat
    have hnil : (if qc.id ≠ 0 then
          qs.filter (fun q =>
            q.category = qc.id && !(prev.contains q.id))
        else qs.filter (fun q => !(prev.contains q.id))) = [] := by
      by_cases hqc : qc.id = 0
      · rw [if_neg (not_not_intro hqc)]
        refine List.filter_eq_nil_iff.mpr ?_
        intro q hq
        rcases hall q hq with hp | ⟨hc, -⟩
        · simp [hp]
        · exact absurd hqc hc
      · rw [if_pos hqc]
        refine List.filter_eq_nil_iff.mpr ?_
        intro q hq
        rcases hall q hq with hp | ⟨-, hcat⟩
        · simp [hp]
        · simp [hcat]
    constructor
    · rw [quiz_questions_eq, hnil, hpick_none]
    · rw [quiz_questions_eq, hnil, hpick_none]
      rfl

/-- Witness for C2: on the demo store, a missing `quiz_category`
answers 400, and with every question already seen the answer is the
empty object with status 200 (the random pick instantiated by
`List.head?`). -/
theorem quiz_spec_witness :
    get_quiz_questions demoQuestions List.head? [1, 2] none
      = .httpErr 400 "Required keys missing from request body"
    ∧ get_quiz_questions demoQuestions List.head? [1, 2, 3] (some { id := 4 })
        = .ok .empty
    ∧ (get_quiz_questions demoQuestions List.head? [1, 2, 3]
        (some { id := 4 })).status = 200 := by
  have h4 := (quiz_spec demoQuestions List.head? [1, 2, 3] (some { id := 4 })
    (fun l q h => List.mem_of_mem_head? (by simp [h])) rfl).2.2.2
    { id := 4 } rfl (by decide)
  exact ⟨(quiz_spec demoQuestions List.head? [1, 2] none
    (fun l q h => List.mem_of_mem_head? (by simp [h])) rfl).1 rfl, h4.1, h4.2⟩

/-- C5: when the term compiles to a regex realised by the pure match
function `m`, the returned questions are exactly the formatted
questions whose text `m` accepts, and `total_questions` is their
number; a term accepting everything (as the empty term does under
`re.search`) returns the whole list, and a term accepting nothing
returns the empty list with `total_questions = 0`. -/
theorem search_spec (qs : List Question)
    (reSearch : String → String → Except String Bool) (term : String)
    (m : String → Bool)
    (hm : ∀ s, reSearch term s = .ok (m s)) :
    search qs reSearch (some term)
      = .ok { questions := (qs.filter (fun q => m q.question)).map Question.format,
              total_questions := (qs.filter (fun q => m q.question)).length }
    ∧ ((∀ s, m s = true) →
        search qs reSearch (some term)
          = .ok { questions := qs.map Question.format,
                  total_questions := qs.length })
    ∧ ((∀ s, m s = false) →
        search qs reSearch (some term)
          = .ok { questions := [], total_questions := 0 }) := by
  have hfilter := exceptFilter_ok (fun q => reSearch term q.question)
    (fun q => m q.question) (fun q => hm q.question) qs
  have hmain : search qs reSearch (some term)
      = .ok { questions := (qs.filter (fun q => m q.question)).map Question.format,
              total_questions := (qs.filter (fun q => m q.question)).length } := by
    simp [search, hfilter]
  refine ⟨hmain, ?_, ?_⟩
  · intro hall
    rw [hmain, List.filter_eq_self.mpr (fun q _ => hall q.question)]
  · intro hnone
    rw [hmain, List.filter_eq_nil_iff.mpr (fun q _ => by simp [hnone q.question])]
    rfl

/-- Witness for C5: searching the demo store for `what` with a
concrete case-insensitive matcher returns exactly the matching
questions. -/
theorem search_spec_witness :
    search demoQuestions demoMatcher (some "what")
      = .ok { questions :=
                (demoQuestions.filter
                  (fun q => demoWhatMatch q.question)).map Question.format,
              total_questions :=
                (demoQuestions.filter
                  (fun q => demoWhatMatch q.question)).length } :=
  (search_spec demoQuestions demoMatcher "what" demoWhatMatch
    (fun _ => rfl)).1

/-- C10 counterexample: the claim says an uncompilable term always
yields status 500; with an empty question store the comprehension never
invokes the regex engine, so even the term `(` — on which the engine
raises (shown at a sample string) — yields 200 with an empty list. -/
theorem search_invalid_regex_counterexample :
    demoMatcher "(" "sample" = .error "missing ), unterminated subpattern at position 0"
    ∧ search [] demoMatcher (some "(") = .ok { questions := [], total_questions := 0 }
    ∧ (search [] demoMatcher (some "(")).status = 200 :=
  ⟨rfl, rfl, rfl⟩

/-- C10 amended: when at least one question is stored, a term on which
the regex engine raises makes the first match attempt raise, the
catch-all handler answers, and the response is a 500 error body with
`success: false` and no questions; with an empty store the engine is
never invoked and the response is 200 with an empty list. -/
theorem search_invalid_regex (qs : List Question)
    (reSearch : String → String → Except String Bool) (term e : String)
    (hqs : qs ≠ [])
    (he : ∀ s, reSearch term s = .error e) :
    (search qs reSearch (some term)).status = 500
    ∧ renderError (search qs reSearch (some term))
        = some ({ success := false, error := 500,
                  message := "Something went wrong: " ++ e }, 500) := by
  cases qs with
  | nil => exact absurd rfl hqs
  | cons a as =>
    have herr := exceptFilter_error (fun q => reSearch term q.question) e
      (fun q => he q.question) a as
    constructor <;>
      simp [search, herr, Resp.status, renderError, exception_handler]

/-- Witness for the amended C10: the term `(` on the nonempty demo
store yields status 500. -/
theorem search_invalid_regex_witness :
    (search demoQuestions demoMatcher (some "(")).status = 500
    ∧ renderError (search demoQuestions demoMatcher (some "("))
        = some ({ success := false, error := 500,
                  message := "Something went wrong: "
                    ++ "missing ), unterminated subpattern at position 0" }, 500) :=
  search_invalid_regex demoQuestions demoMatcher "("
    "missing ), unterminated subpattern at position 0"
    (by simp [demoQuestions]) (fun _ => rfl)

/-- C8: every failed response is translated to JSON at the service
boundary — an explicitly raised HTTP error (400, 404, framework 405)
becomes `{success: false, error: code, message: description}` with that
same status, any other exception becomes `{success: false, error: 500,
message: "Something went wrong: <details>"}` with status 500, and only
a 200 payload passes through untranslated. -/
theorem error_translation (α : Type) (r : Resp α) :
    (∀ c m, r = .httpErr c m →
      renderError r = some ({ success := false, error := c, message := m }, c)
      ∧ r.status = c)
    ∧ (∀ d, r = .exn d →
      renderError r
        = some ({ success := false, error := 500,
                  message := "Something went wrong: " ++ d }, 500)
      ∧ r.status = 500)
    ∧ (renderError r = none ↔ ∃ a, r = .ok a) := by
  refine ⟨?_, ?_, ?_⟩
  · rintro c m rfl
    exact ⟨rfl, rfl⟩
  · rintro d rfl
    exact ⟨rfl, rfl⟩
  · cases r <;> simp [renderError]

/-- Witness for C8 at a concrete 404 and a concrete unexpected
exception. -/
theorem error_translation_witness :
    renderError (Resp.httpErr 404 "No question found with id: 9" : Resp DeletePayload)
      = some ({ success := false, error := 404,
                message := "No question found with id: 9" }, 404)
    ∧ (Resp.httpErr 404 "No question found with id: 9" : Resp DeletePayload).status = 404
    ∧ renderError (Resp.exn "connection refused" : Resp DeletePayload)
      = some ({ success := false, error := 500,
                message := "Something went wrong: " ++ "connection refused" }, 500) := by
  have h1 := (error_translation DeletePayload
    (Resp.httpErr 404 "No question found with id: 9")).1
    404 "No question found with id: 9" rfl
  have h2 := (error_translation DeletePayload (Resp.exn "connection refused")).2.1
    "connection refused" rfl
  exact ⟨h1.1, h1.2, h2.1⟩
